import Mathlib

/-!
Verification of the book-analyzer repository's core pipeline:
cache key derivation and cache operations (src/lib/services/cache.ts),
text fetching with truncation and error mapping (src/lib/services/gutenberg.ts),
and the analyze route's JSON recovery, transformation and caching
(src/app/api/analyze/route.ts).

JavaScript values are modelled by the inductive type `Js`; strings are
modelled as Lean `String` (sequences of characters standing for the code's
UTF-16 units — none of the verified properties distinguish the two).
`JSON.parse` is an external runtime builtin; it is modelled as an arbitrary
parameter `parse : String → Option Js` (`none` = the parse raised), so all
theorems about the recovery pipeline hold for every possible parser.
Throwing JavaScript expressions are modelled with `Option`
(`none` = a runtime exception was raised).
-/

/-- A JavaScript value: `undefined`, `null`, booleans, numbers, strings,
arrays and plain objects (association lists of fields; lookup takes the
first match, and objects produced by parsing are assumed de-duplicated,
as `JSON.parse` keeps a single binding per key). -/
inductive Js where
  | undef : Js
  | null : Js
  | bool : Bool → Js
  | num : Int → Js
  | str : String → Js
  | arr : List Js → Js
  | obj : List (String × Js) → Js
deriving Repr

/-- JavaScript truthiness (`if (x)`); `NaN` is not modelled. -/
def jsTruthy : Js → Bool
  | Js.undef => false
  | Js.null => false
  | Js.bool b => b
  | Js.num n => !(n == 0)
  | Js.str s => !(s == "")
  | Js.arr _ => true
  | Js.obj _ => true

/-- Whether a value is `undefined` or `null` (the values short-circuited
by the optional-chaining operator). -/
def jsNullish : Js → Bool
  | Js.undef => true
  | Js.null => true
  | _ => false

/-- JavaScript property access `recv[k]`: raises (`none`) on a nullish
receiver, looks the key up on objects (absent keys give `undefined`), and
gives `undefined` on other values (no accessed key in this development
collides with a built-in property of primitives or arrays). -/
def getProp : Js → String → Option Js
  | Js.undef, _ => none
  | Js.null, _ => none
  | Js.obj fs, k => some ((fs.lookup k).getD Js.undef)
  | _, _ => some Js.undef

/-- The set of characters treated as whitespace by JavaScript's
`String.prototype.trim` and by the `\s` regex class. -/
def jsWsChar (c : Char) : Bool :=
  c == ' ' || c == '\t' || c == '\n' || c == '\r' ||
  c == Char.ofNat 11 || c == Char.ofNat 12 ||
  c == Char.ofNat 160 || c == Char.ofNat 65279 ||
  c == Char.ofNat 5760 || (8192 ≤ c.toNat && c.toNat ≤ 8202) ||
  c == Char.ofNat 8232 || c == Char.ofNat 8233 ||
  c == Char.ofNat 8239 || c == Char.ofNat 8287 || c == Char.ofNat 12288

/-- Drop leading JS whitespace from a character list. -/
def trimLeftList (l : List Char) : List Char := l.dropWhile jsWsChar

/-- Drop trailing JS whitespace from a character list. -/
def trimRightList (l : List Char) : List Char :=
  (l.reverse.dropWhile jsWsChar).reverse

/-- JavaScript `s.trim()`. -/
def jsTrim (s : String) : String :=
  String.mk (trimRightList (trimLeftList s.data))

/-- JavaScript `s.length` (see the header note on string modelling). -/
def jsLength (s : String) : Nat := s.data.length

namespace CacheService

/-- cache.ts: `generateBookKey(bookId)` returns `` `book:${bookId}:text` ``
(no trimming happens inside the derivation). -/
def generateBookKey (bookId : String) : String :=
  "book:" ++ bookId ++ ":text"

/-- cache.ts: `generateAnalysisKey(bookId)` returns
`` `book:${bookId}:analysis` `` (no trimming happens inside). -/
def generateAnalysisKey (bookId : String) : String :=
  "book:" ++ bookId ++ ":analysis"

/-- The 7-day default TTL, `60 * 60 * 24 * 7` seconds (cache.ts). -/
def defaultTTL : Int := 60 * 60 * 24 * 7

/-- cache.ts `set`: `const finalTTL = ttl || this.defaultTTL` — the default
applies when the caller passes no TTL or a falsy (zero) TTL. -/
def finalTTL : Option Int → Int
  | some t => if t == 0 then defaultTTL else t
  | none => defaultTTL

/-- Outcome of one call into the underlying Upstash Redis client:
either a resolved value or a raised transport error (with its message). -/
inductive StoreResult (α : Type) where
  | ok : α → StoreResult α
  | err : String → StoreResult α

/-- The behaviour of the external Redis store during one request: what each
raw client call would do for a given key (`get` resolves with the stored
value or `null`; `exists` resolves with a count). -/
structure RedisBehavior where
  getR : String → StoreResult (Option Js)
  setexR : String → Int → Js → StoreResult Unit
  delR : String → StoreResult Int
  existsR : String → StoreResult Int

/-- cache.ts `get`: returns the stored value (`none` models `null`),
and on a raised store error returns `null` instead of propagating. -/
def get (r : RedisBehavior) (key : String) : Option Js :=
  match r.getR key with
  | StoreResult.ok v => v
  | StoreResult.err _ => none

/-- cache.ts `set`: issues `setex key finalTTL value`; returns `true` on
success and `false` (never raises) on a store error. -/
def set (r : RedisBehavior) (key : String) (value : Js) (ttl : Option Int) : Bool :=
  match r.setexR key (finalTTL ttl) value with
  | StoreResult.ok _ => true
  | StoreResult.err _ => false

/-- cache.ts `delete`: returns `true` on success, `false` on a store error. -/
def delete (r : RedisBehavior) (key : String) : Bool :=
  match r.delR key with
  | StoreResult.ok _ => true
  | StoreResult.err _ => false

/-- cache.ts `exists`: returns `result === 1` on success, `false` on a
store error. -/
def existsKey (r : RedisBehavior) (key : String) : Bool :=
  match r.existsR key with
  | StoreResult.ok n => n == 1
  | StoreResult.err _ => false

end CacheService

/-- gutenberg.ts: `maxTextLength = 5000`. -/
def maxTextLength : Nat := 5000

/-- gutenberg.ts truncation: text longer than `maxTextLength` characters is
cut to its first `maxTextLength` characters with `"..."` appended
(`bookText.substring(0, maxTextLength) + '...'`); shorter text is kept. -/
def truncateText (bookText : String) : String :=
  if jsLength bookText > maxTextLength then
    String.mk (bookText.data.take maxTextLength) ++ "..."
  else bookText

/-- The outcome of the one `axios.get` call made by `getBookText`:
either the promise resolved (with a status and a `response.data` value)
or it rejected. A rejection carries axios's `isAxiosError` marker, the
optional `response.status`, the optional `code`, whether the thrown value
is an `Error` instance, and its message. -/
inductive AxiosOutcome where
  | resolved : Int → Js → AxiosOutcome
  | rejected : Bool → Option Int → Option String → Bool → String → AxiosOutcome

/-- The external world a single `getBookText` call observes: what the
cache `get` for the book-text key returns (`none` models `null`, i.e. a
miss or a swallowed cache error) and what the outbound request would do. -/
structure FetchEnv where
  cached : Option String
  axios : AxiosOutcome

/-- The observable outcome of `getBookText`: the returned text or the
thrown error's message, plus the cache write it issued
(`key`, TTL seconds, value), if any. -/
structure GbOutcome where
  result : Except String String
  write : Option (String × Int × String)
deriving Repr

/-- gutenberg.ts miss path: issue the request, check the status, validate
the payload, truncate, cache, return — and the catch block's mapping of
axios failures (404 → not found with the original `bookId` in the message,
`ECONNABORTED` → timeout, `ENOTFOUND`/`ECONNREFUSED` → connectivity,
other axios errors → generic network error; non-axios `Error`s are
rethrown unchanged, anything else becomes the generic message). -/
def fetchFresh (bookId cleanBookId : String) (ax : AxiosOutcome) : GbOutcome :=
  match ax with
  | AxiosOutcome.resolved status data =>
    if !(status == 200) then
      ⟨Except.error ("Failed to fetch book: HTTP " ++ toString status), none⟩
    else
      match data with
      | Js.str t =>
        if t == "" then
          ⟨Except.error ("Invalid response format: expected text content"), none⟩
        else
          let truncated := truncateText t
          ⟨Except.ok truncated,
           some (CacheService.generateBookKey cleanBookId,
                 CacheService.finalTTL none, truncated)⟩
      | _ => ⟨Except.error ("Invalid response format: expected text content"), none⟩
  | AxiosOutcome.rejected isAxiosError respStatus code isError msg =>
    if isAxiosError then
      if respStatus == some 404 then
        ⟨Except.error ("Book with ID " ++ bookId ++ " not found"), none⟩
      else if code == some "ECONNABORTED" then
        ⟨Except.error ("Request timeout: Unable to fetch book text"), none⟩
      else if code == some "ENOTFOUND" || code == some "ECONNREFUSED" then
        ⟨Except.error ("Network error: Unable to connect to Project Gutenberg"), none⟩
      else ⟨Except.error ("Network error: " ++ msg), none⟩
    else if isError then ⟨Except.error msg, none⟩
    else ⟨Except.error ("An unexpected error occurred while fetching the book"), none⟩

/-- gutenberg.ts `getBookText`: validate the identifier
(`!bookId || typeof bookId !== 'string' || bookId.trim() === ''`),
derive the text cache key from the trimmed id, return a truthy cached
string unchanged, otherwise fetch. `none` for `bookId` models an absent
(`undefined`) argument. -/
def getBookText (bookId : Option String) (env : FetchEnv) : GbOutcome :=
  match bookId with
  | none => ⟨Except.error ("Invalid book ID provided"), none⟩
  | some bid =>
    if bid == "" then ⟨Except.error ("Invalid book ID provided"), none⟩
    else if jsTrim bid == "" then ⟨Except.error ("Invalid book ID provided"), none⟩
    else
      let cleanBookId := jsTrim bid
      match env.cached with
      | some t =>
        if !(t == "") then ⟨Except.ok t, none⟩
        else fetchFresh bid cleanBookId env.axios
      | none => fetchFresh bid cleanBookId env.axios

/-- route.ts response cleaning: trim, then strip a leading ` ```json `
fence (with trailing whitespace), then a leading ` ``` ` fence, then a
trailing ` ``` ` fence (with preceding whitespace), each only when the
corresponding `startsWith`/`endsWith` test holds — mirroring the three
anchored `replace` regexes. -/
def cleanResponse (raw : List Char) : List Char :=
  let c := trimRightList (trimLeftList raw)
  let c := if List.isPrefixOf ("```json").data c then
             trimLeftList (c.drop 7) else c
  let c := if List.isPrefixOf ("```").data c then
             trimLeftList (c.drop 3) else c
  let c := if List.isSuffixOf ("```").data c then
             trimRightList (c.take (c.length - 3)) else c
  c

/-- Whether a character list starts with the given character. -/
def headIs (l : List Char) (c : Char) : Bool :=
  match l with
  | [] => false
  | x :: _ => x == c

/-- route.ts `typeof parsedAnalysis === 'object'`: true exactly for
objects, arrays and `null`. -/
def typeofObject : Js → Bool
  | Js.obj _ => true
  | Js.arr _ => true
  | Js.null => true
  | _ => false

/-- route.ts direct parse attempt: clean the raw response; if it starts
with `{` and ends with `}`, run `JSON.parse` on it and keep the result
only when it passes `parsedAnalysis && typeof parsedAnalysis === 'object'`;
every other path (brace test failed, parse raised, validation failed)
falls through to the extraction fallback. -/
def directAttempt (parse : String → Option Js) (raw : String) : Option Js :=
  let c := cleanResponse raw.data
  if headIs c '{' && headIs c.reverse '}' then
    match parse (String.mk c) with
    | some v => if jsTruthy v && typeofObject v then some v else none
    | none => none
  else none

/-- route.ts extraction fallback's regex `/\{[\s\S]*\}/` applied to the
original raw response: the greedy match spans from the first `{` to the
last `}` of the whole string, and exists exactly when the first `{`
precedes the last `}`. -/
def extractBraces (raw : List Char) : Option (List Char) :=
  match raw.findIdx? (fun c => c == '{'), raw.reverse.findIdx? (fun c => c == '}') with
  | some i, some jr =>
    let j := raw.length - 1 - jr
    if i < j then some ((raw.drop i).take (j - i + 1)) else none
  | _, _ => none

/-- route.ts extraction fallback: `JSON.parse(jsonMatch[0])` on the
first-`{`-to-last-`}` substring of the original raw response; no shape
validation is applied on this path. -/
def fallbackAttempt (parse : String → Option Js) (raw : String) : Option Js :=
  match extractBraces raw.data with
  | some sub => parse (String.mk sub)
  | none => none

/-- route.ts JSON recovery: the direct attempt, then (inside the parse
`catch` block) the extraction fallback; `none` means both failed and the
route returns its 500 "Invalid analysis response format" response. -/
def recoverJson (parse : String → Option Js) (raw : String) : Option Js :=
  match directAttempt parse raw with
  | some v => some v
  | none => fallbackAttempt parse raw

/-- JavaScript `Array.prototype.map` with a possibly-throwing callback:
stops at the first raised exception (`none`). -/
def seqMap (f : Js → Option Js) : List Js → Option (List Js)
  | [] => some []
  | a :: as =>
    match f a with
    | none => none
    | some b =>
      match seqMap f as with
      | none => none
      | some bs => some (b :: bs)

/-- One flattening step of `Array.prototype.flatMap`: array results are
spliced, non-array results are kept as single elements. -/
def flattenParts : List Js → List Js
  | [] => []
  | Js.arr ys :: rest => ys ++ flattenParts rest
  | x :: rest => x :: flattenParts rest

/-- route.ts inner arrow function: build
`{character1: character.name, character2: rel.target,
relationship: rel.description, strength: 'moderate'}` — `strength` is the
literal constant. Property access on a nullish `rel` raises. -/
def relationshipEntry (character rel : Js) : Option Js :=
  match getProp character ("name") with
  | none => none
  | some name =>
    match getProp rel ("target") with
    | none => none
    | some tgt =>
      match getProp rel ("description") with
      | none => none
      | some desc =>
        some (Js.obj [("character1", name), ("character2", tgt),
                      ("relationship", desc), ("strength", Js.str "moderate")])

/-- route.ts `character.relationships?.map(...) || []`: nullish
relationships give `[]`; a non-array non-nullish value has no `map`
method and raises; otherwise map the entry builder over the array. -/
def mapRelationships (character : Js) : Option Js :=
  match getProp character ("relationships") with
  | none => none
  | some rels =>
    if jsNullish rels then some (Js.arr [])
    else
      match rels with
      | Js.arr xs =>
        match seqMap (relationshipEntry character) xs with
        | none => none
        | some entries => some (Js.arr entries)
      | _ => none

/-- route.ts `parsedAnalysis.characters?.flatMap(...) || []`. -/
def characterRelationships (pa : Js) : Option Js :=
  match getProp pa ("characters") with
  | none => none
  | some chars =>
    if jsNullish chars then some (Js.arr [])
    else
      match chars with
      | Js.arr xs =>
        match seqMap mapRelationships xs with
        | none => none
        | some parts => some (Js.arr (flattenParts parts))
      | _ => none

/-- route.ts `parsedAnalysis.characters?.map(char => char.name) || []`. -/
def keyCharacters (pa : Js) : Option Js :=
  match getProp pa ("characters") with
  | none => none
  | some chars =>
    if jsNullish chars then some (Js.arr [])
    else
      match chars with
      | Js.arr xs =>
        match seqMap (fun c => getProp c ("name")) xs with
        | none => none
        | some names => some (Js.arr names)
      | _ => none

/-- JavaScript `text.split(/\s+/)` scanning loop. The state is `some cur`
while accumulating the (reversed) current piece, and `none` while inside a
whitespace run (whose end starts a fresh piece); a run reaching the end of
the string contributes a final empty piece. -/
def splitWsGo : List Char → Option (List Char) → List (List Char)
  | [], some cur => [cur.reverse]
  | [], none => [[]]
  | c :: rest, some cur =>
    if jsWsChar c then cur.reverse :: splitWsGo rest none
    else splitWsGo rest (some (c :: cur))
  | c :: rest, none =>
    if jsWsChar c then splitWsGo rest none
    else splitWsGo rest (some [c])

/-- JavaScript `text.split(/\s+/)`: split on maximal whitespace runs;
leading and trailing runs contribute empty pieces, and splitting the
empty string gives `[""]` — so `"".split(/\s+/).length === 1`. -/
def splitWs (s : String) : List String :=
  (splitWsGo s.data (some [])).map String.mk

/-- route.ts `transformedAnalysis` object literal: exactly the five fields
`characterRelationships`, `keyCharacters`, `themes` (pass-through with
`|| []`), `summary` (`plot_summary || 'No summary available'`) and
`wordCount` (`bookText.split(/\s+/).length`), evaluated in source order.
No `keyEvents`, `title` or `author` field is produced here. -/
def transformedAnalysis (pa : Js) (bookText : String) : Option (List (String × Js)) :=
  match characterRelationships pa with
  | none => none
  | some crel =>
    match keyCharacters pa with
    | none => none
    | some kc =>
      match getProp pa ("themes") with
      | none => none
      | some th =>
        match getProp pa ("plot_summary") with
        | none => none
        | some ps =>
          some [("characterRelationships", crel),
                ("keyCharacters", kc),
                ("themes", if jsTruthy th then th else Js.arr []),
                ("summary", if jsTruthy ps then ps else Js.str "No summary available"),
                ("wordCount", Js.num ((splitWs bookText).length : Int))]

/-- Whether `sub` occurs as a contiguous run inside a character list. -/
def listContains (sub : List Char) : List Char → Bool
  | [] => List.isPrefixOf sub []
  | c :: rest => List.isPrefixOf sub (c :: rest) || listContains sub rest

/-- Whether a string contains another as a substring
(JavaScript `String.prototype.includes`). -/
def strIncludes (s sub : String) : Bool := listContains sub.data s.data

/-- One HTTP response produced by the analyze route: status code, JSON
body, and the cache writes (key, TTL seconds, value) issued during the
request, in order. -/
structure RouteResp where
  status : Int
  body : Js
  writes : List (String × Int × Js)

/-- The external world one analyze request observes: the `bookId` query
parameter (`none` models `searchParams.get` returning `null`), the result
of the analysis-cache `get`, the text fetch's environment, the agent chat
call's outcome, and the value of `new Date().toISOString()`. -/
structure RouteEnv where
  bookId : Option String
  cachedAnalysis : Option Js
  fetch : FetchEnv
  chatResult : Except String String
  now : String

/-- route.ts outer `catch` block: map a thrown `Error`'s message —
`'not found'` → 404 (rebuilt with the raw `bookId`), `'timeout'` or
`'Network error'` → 503, `'GROQ_API_KEY'` → 500 configuration error,
anything else → 500 with the message itself. -/
def routeCatchSB (bookId msg : String) : Int × Js :=
  if strIncludes msg ("not found") then
    (404, Js.obj [("error", Js.str ("Book with ID " ++ bookId ++ " not found"))])
  else if strIncludes msg ("timeout") || strIncludes msg ("Network error") then
    (503, Js.obj [("error", Js.str "Service temporarily unavailable")])
  else if strIncludes msg ("GROQ_API_KEY") then
    (500, Js.obj [("error", Js.str "LLM service configuration error")])
  else (500, Js.obj [("error", Js.str msg)])

/-- The outer-catch response together with the cache writes already
issued before the error was thrown. -/
def routeCatch (bookId msg : String) (ws : List (String × Int × Js)) : RouteResp :=
  ⟨(routeCatchSB bookId msg).1, (routeCatchSB bookId msg).2, ws⟩

/-- route.ts early 500 returned when both JSON recovery attempts fail
(returned directly from the parse `catch`, bypassing the outer catch). -/
def unparsableResp (ws : List (String × Int × Js)) : RouteResp :=
  ⟨500,
   Js.obj [("error",
            Js.str "Invalid analysis response format - LLM did not return valid JSON"),
           ("details",
            Js.str "The AI response could not be parsed as JSON. This may be due to the LLM including explanatory text or markdown formatting.")],
   ws⟩

/-- Stand-in message for a JavaScript `TypeError` raised inside the
transformation (the exact runtime text is engine-specific; no mapped
substring — `not found`, `timeout`, `Network error`, `GROQ_API_KEY` —
occurs in such messages). -/
def typeErrorMsg : String := "TypeError"

/-- The cache writes issued by the text-fetch step, as seen from the
route (its string value serialized as a JSON value). -/
def textWrites (gb : GbOutcome) : List (String × Int × Js) :=
  match gb.write with
  | some (k, t, v) => [(k, t, Js.str v)]
  | none => []

/-- route.ts cache-miss path: fetch the text (collecting its cache write),
call the agent, recover JSON, transform, assemble `analysisResult` with
`bookId`, placeholder `title`, `author || 'Unknown Author'`, the
transformed analysis and a fresh timestamp, cache it with no explicit TTL,
and return it. Failures route through the outer catch mapping. -/
def missPath (parse : String → Option Js) (env : RouteEnv) (id : String) : RouteResp :=
  let gb := getBookText (some id) env.fetch
  let ws : List (String × Int × Js) := textWrites gb
  match gb.result with
  | Except.error e => routeCatch id e ws
  | Except.ok bookText =>
    match env.chatResult with
    | Except.error e => routeCatch id e ws
    | Except.ok analysisResponse =>
      match recoverJson parse analysisResponse with
      | none => unparsableResp ws
      | some pa =>
        match transformedAnalysis pa bookText with
        | none => routeCatch id typeErrorMsg ws
        | some ta =>
          match getProp pa ("author") with
          | none => routeCatch id typeErrorMsg ws
          | some au =>
            let analysisResult :=
              Js.obj [("bookId", Js.str id),
                      ("title", Js.str ("Book ID: " ++ id)),
                      ("author", if jsTruthy au then au else Js.str "Unknown Author"),
                      ("analysis", Js.obj ta),
                      ("timestamp", Js.str env.now)]
            ⟨200, analysisResult,
             ws ++ [(CacheService.generateAnalysisKey id,
                     CacheService.finalTTL none, analysisResult)]⟩

/-- route.ts `GET`: reject a missing or empty `bookId` with 400, return a
truthy cached analysis verbatim (no writes), otherwise run the miss path. -/
def analyzeGET (parse : String → Option Js) (env : RouteEnv) : RouteResp :=
  match env.bookId with
  | none => ⟨400, Js.obj [("error", Js.str "bookId parameter is required")], []⟩
  | some id =>
    if id == "" then
      ⟨400, Js.obj [("error", Js.str "bookId parameter is required")], []⟩
    else
      match env.cachedAnalysis with
      | some v =>
        if jsTruthy v then ⟨200, v, []⟩
        else missPath parse env id
      | none => missPath parse env id

/-- The TS-annotated shape of one relationship entry in the parsed model
response (route.ts annotates `Array<{target: string; description: string}>`). -/
structure RelSpec where
  target : String
  description : String

/-- The TS-annotated shape of one character entry in the parsed model
response (`{name: string; relationships?: ...}`). -/
structure CharSpec where
  name : String
  relationships : Option (List RelSpec)

/-- Encode a relationship entry as the JavaScript object it denotes. -/
def encodeRel (r : RelSpec) : Js :=
  Js.obj [("target", Js.str r.target), ("description", Js.str r.description)]

/-- Encode a character entry as the JavaScript object it denotes (the
optional `relationships` field is absent when `none`). -/
def encodeChar (c : CharSpec) : Js :=
  Js.obj (("name", Js.str c.name) ::
    (match c.relationships with
     | some rs => [("relationships", Js.arr (rs.map encodeRel))]
     | none => []))

/-- Spec wording of §4.3 step 7 (for comparison with the code): for each
character entry (default empty list), for each of its relationship entries
(default empty list), emit the four-field record with the fixed
`strength: "moderate"`. -/
def specCharacterRelationships (cs : List CharSpec) : List Js :=
  match cs with
  | [] => []
  | c :: rest =>
    ((c.relationships.getD []).map (fun r =>
        Js.obj [("character1", Js.str c.name), ("character2", Js.str r.target),
                ("relationship", Js.str r.description),
                ("strength", Js.str "moderate")]))
      ++ specCharacterRelationships rest

/-- A concrete stand-in for `JSON.parse` used to instantiate the
parse-parameterised theorems at concrete inputs: it recognises exactly the
two-character source `{}` (the empty JSON object). -/
def parseEmptyObj : String → Option Js :=
  fun s => if s == String.mk ['{', '}'] then some (Js.obj []) else none

/-- The raw model response `{}` (a two-character string). -/
def rawEmptyObj : String := String.mk ['{', '}']

/-- A concrete store whose every underlying call raises. -/
def errStore : CacheService.RedisBehavior :=
  ⟨fun _ => CacheService.StoreResult.err ("store down"),
   fun _ _ _ => CacheService.StoreResult.err ("store down"),
   fun _ => CacheService.StoreResult.err ("store down"),
   fun _ => CacheService.StoreResult.err ("store down")⟩

/-- A concrete fetch environment: text cache miss, upstream resolves with
status 200 and the body `a b`. -/
def fetchEnvOk : FetchEnv := ⟨none, AxiosOutcome.resolved 200 (Js.str "a b")⟩

/-- A concrete analyze-route environment: `bookId=1`, analysis cache miss,
successful fetch and model call (the model returns `{}`). -/
def routeEnv1 : RouteEnv :=
  ⟨some "1", none, fetchEnvOk, Except.ok rawEmptyObj, "2024-01-01T00:00:00.000Z"⟩

/-- The same request replayed after the first one populated the analysis
cache: the cache now holds the first response's body, and the clock has
moved on. -/
def routeEnv2 : RouteEnv :=
  ⟨some "1", some ((analyzeGET parseEmptyObj routeEnv1).body), fetchEnvOk,
   Except.ok rawEmptyObj, "2024-01-02T00:00:00.000Z"⟩

/-- A concrete source text of 5003 identical characters (longer than the
5000-character cap). -/
def bigText : String := String.mk (List.replicate 5003 'a')

/-- C2 counterexample: the key derivation functions do not trim. For the
identifier `" 1"` (leading space) the derived keys keep the space, so they
differ from the spec's `"book:" + id.trim() + ":text"` /
`"book:" + id.trim() + ":analysis"` formulas. -/
theorem claim2_counterexample :
    ¬ (CacheService.generateBookKey (" 1") = "book:" ++ jsTrim (" 1") ++ ":text" ∧
       CacheService.generateAnalysisKey (" 1") = "book:" ++ jsTrim (" 1") ++ ":analysis") := by
  decide

/-- C2 amended: `generateBookKey`/`generateAnalysisKey` return
`"book:" + id + ":text"` / `"book:" + id + ":analysis"` with the
identifier inserted verbatim (no trimming); the spec's trimmed formulas
hold exactly for identifiers that are already trimmed. -/
theorem claim2_amended_thm :
    (∀ id : String,
        CacheService.generateBookKey id = "book:" ++ id ++ ":text" ∧
        CacheService.generateAnalysisKey id = "book:" ++ id ++ ":analysis") ∧
    (∀ id : String, jsTrim id = id →
        CacheService.generateBookKey id = "book:" ++ jsTrim id ++ ":text" ∧
        CacheService.generateAnalysisKey id = "book:" ++ jsTrim id ++ ":analysis") := by
  constructor
  · intro id
    exact ⟨rfl, rfl⟩
  · intro id h
    rw [h]
    exact ⟨rfl, rfl⟩

/-- C2 witness: the amended theorem applied at the already-trimmed
identifier `"1342"`. -/
theorem claim2_witness :
    CacheService.generateBookKey ("1342") = "book:" ++ jsTrim ("1342") ++ ":text" ∧
    CacheService.generateAnalysisKey ("1342") = "book:" ++ jsTrim ("1342") ++ ":analysis" :=
  claim2_amended_thm.2 ("1342") (by decide)

/-- C9: no cache operation propagates an error from the underlying store:
when the raw client call raises, `get` returns `null`, `set` returns
`false`, `delete` returns `false` and `exists` returns `false` (the
operations are total, so they never raise by construction). -/
theorem claim9_thm :
    ∀ (r : CacheService.RedisBehavior) (key : String) (value : Js)
      (ttl : Option Int) (msg : String),
      (r.getR key = CacheService.StoreResult.err msg →
        CacheService.get r key = none) ∧
      (r.setexR key (CacheService.finalTTL ttl) value = CacheService.StoreResult.err msg →
        CacheService.set r key value ttl = false) ∧
      (r.delR key = CacheService.StoreResult.err msg →
        CacheService.delete r key = false) ∧
      (r.existsR key = CacheService.StoreResult.err msg →
        CacheService.existsKey r key = false) := by
  intro r key value ttl msg
  refine ⟨fun h => ?_, fun h => ?_, fun h => ?_, fun h => ?_⟩ <;>
    simp [CacheService.get, CacheService.set, CacheService.delete,
          CacheService.existsKey, h]

/-- C9 witness: the theorem applied to a concrete store whose every call
raises. -/
theorem claim9_witness :
    CacheService.get errStore ("k") = none ∧
    CacheService.set errStore ("k") Js.null none = false ∧
    CacheService.delete errStore ("k") = false ∧
    CacheService.existsKey errStore ("k") = false :=
  ⟨(claim9_thm errStore ("k") Js.null none ("store down")).1 rfl,
   (claim9_thm errStore ("k") Js.null none ("store down")).2.1 rfl,
   (claim9_thm errStore ("k") Js.null none ("store down")).2.2.1 rfl,
   (claim9_thm errStore ("k") Js.null none ("store down")).2.2.2 rfl⟩

/-- C3: JSON recovery fails (and only then does the route answer with its
UnparsableResponse 500) exactly when both the direct attempt (on the
trimmed, fence-stripped string, gated by the brace test) and the fallback
attempt (on the first-`{`-to-last-`}` substring of the raw string) fail —
for every possible parser; in particular `"not json at all"` (no braces)
always fails, and an input whose fallback substring parses succeeds. -/
theorem claim3_thm :
    (∀ (parse : String → Option Js) (raw : String),
        recoverJson parse raw = none ↔
          directAttempt parse raw = none ∧ fallbackAttempt parse raw = none) ∧
    (∀ parse : String → Option Js,
        recoverJson parse ("not json at all") = none) ∧
    recoverJson parseEmptyObj
        (String.mk ("abc ".data ++ '{' :: '}' :: " def".data)) = some (Js.obj []) := by
  refine ⟨fun parse raw => ?_, fun parse => rfl, rfl⟩
  unfold recoverJson
  cases h : directAttempt parse raw <;> simp [h]

/-- C10: a cached empty string for the book-text key is treated exactly
like a cache miss (`if (cachedText)` tests truthiness): `getBookText`
behaves identically whether the cache returned `""` or `null`, issuing
the fresh outbound request in both cases. -/
theorem claim10_thm :
    ∀ (bid : Option String) (ax : AxiosOutcome),
      getBookText bid ⟨some "", ax⟩ = getBookText bid ⟨none, ax⟩ := by
  intro bid ax
  cases bid <;> rfl

/-- C1 counterexample: from the raw model response `{}` a JSON object is
recovered, yet the transformed analysis object has exactly the five fields
`characterRelationships`, `keyCharacters`, `themes`, `summary`,
`wordCount` — `keyEvents` is absent (it does not default to the empty
list), and `title`/`author` are absent from it as well. -/
theorem claim1_counterexample :
    ((recoverJson parseEmptyObj rawEmptyObj).bind
        (fun pa => transformedAnalysis pa ("a b"))).map
      (fun fs => (fs.map Prod.fst, fs.lookup ("keyEvents"),
                  fs.lookup ("title"), fs.lookup ("author"))) =
      some (["characterRelationships", "keyCharacters", "themes", "summary",
             "wordCount"], none, none, none) := rfl

/-- C1 amended: whenever the transformation completes, the transformed
analysis object contains exactly the five fields
`characterRelationships`, `keyCharacters`, `themes`, `summary` and
`wordCount` (none is ever absent); `keyEvents` is never among them (nor
are `title`/`author`, which live on the enclosing result object); and when
the parsed JSON omits every source field the five fields take their
defaults: empty lists, the `"No summary available"` placeholder, and the
word count computed from the source text. -/
theorem claim1_amended_thm :
    (∀ (pa : Js) (text : String) (fields : List (String × Js)),
        transformedAnalysis pa text = some fields →
          fields.map Prod.fst =
            ["characterRelationships", "keyCharacters", "themes", "summary",
             "wordCount"] ∧
          fields.lookup ("keyEvents") = none ∧
          fields.lookup ("title") = none ∧
          fields.lookup ("author") = none) ∧
    (∀ text : String,
        transformedAnalysis (Js.obj []) text =
          some [("characterRelationships", Js.arr []),
                ("keyCharacters", Js.arr []),
                ("themes", Js.arr []),
                ("summary", Js.str "No summary available"),
                ("wordCount", Js.num ((splitWs text).length : Int))]) := by
  constructor
  · intro pa text fields h
    unfold transformedAnalysis at h
    cases hc : characterRelationships pa <;> rw [hc] at h
    · exact absurd h (by simp)
    cases hk : keyCharacters pa <;> rw [hk] at h
    · exact absurd h (by simp)
    cases ht : getProp pa ("themes") <;> rw [ht] at h
    · exact absurd h (by simp)
    cases hp : getProp pa ("plot_summary") <;> rw [hp] at h
    · exact absurd h (by simp)
    cases h
    exact ⟨rfl, rfl, rfl, rfl⟩
  · intro text
    rfl

/-- C1 witness: the amended theorem applied to the empty parsed object and
the two-word source text `a b`. -/
theorem claim1_witness :
    ([("characterRelationships", Js.arr []), ("keyCharacters", Js.arr []),
      ("themes", Js.arr []), ("summary", Js.str "No summary available"),
      ("wordCount", Js.num 2)] : List (String × Js)).map Prod.fst =
      ["characterRelationships", "keyCharacters", "themes", "summary",
       "wordCount"] ∧
    ([("characterRelationships", Js.arr []), ("keyCharacters", Js.arr []),
      ("themes", Js.arr []), ("summary", Js.str "No summary available"),
      ("wordCount", Js.num 2)] : List (String × Js)).lookup ("keyEvents") = none ∧
    ([("characterRelationships", Js.arr []), ("keyCharacters", Js.arr []),
      ("themes", Js.arr []), ("summary", Js.str "No summary available"),
      ("wordCount", Js.num 2)] : List (String × Js)).lookup ("title") = none ∧
    ([("characterRelationships", Js.arr []), ("keyCharacters", Js.arr []),
      ("themes", Js.arr []), ("summary", Js.str "No summary available"),
      ("wordCount", Js.num 2)] : List (String × Js)).lookup ("author") = none :=
  claim1_amended_thm.1 (Js.obj []) ("a b") _ (by rfl)

/-- Helper: mapping the relationship-entry builder over encoded
relationship entries of a character object succeeds and produces the
four-field records with the fixed `moderate` strength. -/
theorem seqMap_relationshipEntry (nm : String) (extra : List (String × Js))
    (rs : List RelSpec) :
    seqMap (relationshipEntry (Js.obj (("name", Js.str nm) :: extra)))
        (rs.map encodeRel) =
      some (rs.map (fun r =>
        Js.obj [("character1", Js.str nm), ("character2", Js.str r.target),
                ("relationship", Js.str r.description),
                ("strength", Js.str "moderate")])) := by
  induction rs with
  | nil => rfl
  | cons r rest ih =>
    have h1 : relationshipEntry (Js.obj (("name", Js.str nm) :: extra)) (encodeRel r) =
        some (Js.obj [("character1", Js.str nm), ("character2", Js.str r.target),
                      ("relationship", Js.str r.description),
                      ("strength", Js.str "moderate")]) := rfl
    simp [List.map_cons, seqMap, h1, ih]

/-- Helper: the per-character `relationships?.map(...) || []` expression on
an encoded character yields exactly its declared relationships (or the
empty array when the optional field is absent). -/
theorem mapRelationships_encodeChar (c : CharSpec) :
    mapRelationships (encodeChar c) =
      some (Js.arr ((c.relationships.getD []).map (fun r =>
        Js.obj [("character1", Js.str c.name), ("character2", Js.str r.target),
                ("relationship", Js.str r.description),
                ("strength", Js.str "moderate")]))) := by
  cases hr : c.relationships with
  | none =>
    simp only [encodeChar, hr, Option.getD]
    rfl
  | some rs =>
    simp only [encodeChar, hr, Option.getD]
    show (match seqMap (relationshipEntry (Js.obj [("name", Js.str c.name),
            ("relationships", Js.arr (rs.map encodeRel))])) (rs.map encodeRel) with
          | none => none
          | some entries => some (Js.arr entries)) = _
    rw [seqMap_relationshipEntry]

/-- Helper: the outer `flatMap` callback mapped over all encoded
characters. -/
theorem seqMap_mapRelationships (cs : List CharSpec) :
    seqMap mapRelationships (cs.map encodeChar) =
      some (cs.map (fun c => Js.arr ((c.relationships.getD []).map (fun r =>
        Js.obj [("character1", Js.str c.name), ("character2", Js.str r.target),
                ("relationship", Js.str r.description),
                ("strength", Js.str "moderate")])))) := by
  induction cs with
  | nil => rfl
  | cons c rest ih => simp [seqMap, mapRelationships_encodeChar, ih]

/-- Helper: flattening the per-character arrays gives the spec's nested
flattening. -/
theorem flattenParts_spec (cs : List CharSpec) :
    flattenParts (cs.map (fun c => Js.arr ((c.relationships.getD []).map (fun r =>
        Js.obj [("character1", Js.str c.name), ("character2", Js.str r.target),
                ("relationship", Js.str r.description),
                ("strength", Js.str "moderate")])))) =
      specCharacterRelationships cs := by
  induction cs with
  | nil => rfl
  | cons c rest ih => simp [flattenParts, specCharacterRelationships, ih]

/-- C6: for every parsed response of the route's annotated shape, the
code's `characterRelationships` equals the spec's flattening — for each
character (default empty list), for each of its relationships (default
empty list), the record `{character1: name, character2: target,
relationship: description, strength: "moderate"}` with the constant
strength never taken from the response; an absent characters list yields
the empty array. -/
theorem claim6_thm :
    (∀ cs : List CharSpec,
        characterRelationships (Js.obj [("characters", Js.arr (cs.map encodeChar))]) =
          some (Js.arr (specCharacterRelationships cs))) ∧
    characterRelationships (Js.obj []) = some (Js.arr []) := by
  refine ⟨fun cs => ?_, rfl⟩
  show (match seqMap mapRelationships (cs.map encodeChar) with
        | none => none
        | some parts => some (Js.arr (flattenParts parts))) = _
  simp only [seqMap_mapRelationships, flattenParts_spec]

/-- C5: for a valid identifier on the fresh-fetch path, source text longer
than 5000 characters is returned as exactly its first 5000 characters plus
the 3-character marker `...` (total length 5003) and exactly that string
is also what gets written to the cache; text of length at most 5000 is
returned (and cached) unchanged; and a truthy cached entry is returned
verbatim — so the cached and freshly fetched paths are observably
identical. -/
theorem claim5_thm :
    ∀ (id s : String), ¬ id = "" → ¬ jsTrim id = "" → ¬ s = "" →
      (jsLength s > maxTextLength →
          getBookText (some id) ⟨none, AxiosOutcome.resolved 200 (Js.str s)⟩ =
            ⟨Except.ok (String.mk (s.data.take maxTextLength) ++ "..."),
             some (CacheService.generateBookKey (jsTrim id), CacheService.finalTTL none,
                   String.mk (s.data.take maxTextLength) ++ "...")⟩ ∧
          jsLength (String.mk (s.data.take maxTextLength) ++ "...") = 5003) ∧
      (jsLength s ≤ maxTextLength →
          getBookText (some id) ⟨none, AxiosOutcome.resolved 200 (Js.str s)⟩ =
            ⟨Except.ok s, some (CacheService.generateBookKey (jsTrim id),
                                CacheService.finalTTL none, s)⟩) ∧
      (∀ t : String, ¬ t = "" →
          getBookText (some id) ⟨some t, AxiosOutcome.resolved 200 (Js.str s)⟩ =
            ⟨Except.ok t, none⟩) := by
  intro id s hid htrim hs
  have hid' : (id == "") = false := by simp [hid]
  have htrim' : (jsTrim id == "") = false := by simp [htrim]
  have hs' : (s == "") = false := by simp [hs]
  refine ⟨fun hlen => ⟨?_, ?_⟩, fun hlen => ?_, fun t ht => ?_⟩
  · simp [getBookText, fetchFresh, truncateText, hid', htrim', hs', hlen]
  · have hlen' : s.data.length > 5000 := hlen
    rw [jsLength, String.data_append, List.length_append, List.length_take]
    rw [show ("..." : String).data.length = 3 from rfl]
    unfold maxTextLength
    omega
  · have hnot : ¬ jsLength s > maxTextLength := by omega
    simp [getBookText, fetchFresh, truncateText, hid', htrim', hs', hnot]
  · have ht' : (t == "") = false := by simp [ht]
    simp [getBookText, hid', htrim', ht']

/-- C5 witness: the theorem applied at identifier `1` and a concrete
5003-character source text. -/
theorem claim5_witness :
    getBookText (some "1") ⟨none, AxiosOutcome.resolved 200 (Js.str bigText)⟩ =
      ⟨Except.ok (String.mk (bigText.data.take maxTextLength) ++ "..."),
       some (CacheService.generateBookKey (jsTrim ("1")), CacheService.finalTTL none,
             String.mk (bigText.data.take maxTextLength) ++ "...")⟩ ∧
    jsLength (String.mk (bigText.data.take maxTextLength) ++ "...") = 5003 := by
  have hbig : jsLength bigText > maxTextLength := by
    show 5000 < (List.replicate 5003 'a').length
    rw [List.length_replicate]
    norm_num
  have hne : ¬ bigText = "" := by
    intro hh
    have h2 : jsLength bigText = 0 := by rw [hh]; rfl
    have h3 : jsLength bigText = 5003 := by
      show (List.replicate 5003 'a').length = 5003
      rw [List.length_replicate]
    omega
  exact (claim5_thm ("1") bigText (by decide) (by decide) hne).1 hbig

/-- C8: `getBookText` fails with the invalid-identifier error for an
absent, empty or whitespace-only identifier; on an axios rejection whose
response status is 404 it fails with `Book with ID {id} not found`
(rebuilt from the untrimmed identifier); and on an `ECONNABORTED`
rejection (that is not a 404) it fails with the request-timeout message. -/
theorem claim8_thm :
    (∀ env : FetchEnv,
        getBookText none env = ⟨Except.error ("Invalid book ID provided"), none⟩) ∧
    (∀ env : FetchEnv,
        getBookText (some "") env = ⟨Except.error ("Invalid book ID provided"), none⟩) ∧
    (∀ (id : String) (env : FetchEnv), jsTrim id = "" →
        getBookText (some id) env = ⟨Except.error ("Invalid book ID provided"), none⟩) ∧
    (∀ (id msg : String) (code : Option String) (isErr : Bool),
        ¬ id = "" → ¬ jsTrim id = "" →
        getBookText (some id) ⟨none, AxiosOutcome.rejected true (some 404) code isErr msg⟩ =
          ⟨Except.error ("Book with ID " ++ id ++ " not found"), none⟩) ∧
    (∀ (id msg : String) (st : Option Int) (isErr : Bool),
        ¬ id = "" → ¬ jsTrim id = "" → ¬ st = some 404 →
        getBookText (some id) ⟨none, AxiosOutcome.rejected true st (some "ECONNABORTED") isErr msg⟩ =
          ⟨Except.error ("Request timeout: Unable to fetch book text"), none⟩) := by
  refine ⟨fun env => rfl, fun env => rfl, fun id env h => ?_, ?_, ?_⟩
  · by_cases hid : id = ""
    · simp [getBookText, hid]
    · have hid' : (id == "") = false := by simp [hid]
      have h' : (jsTrim id == "") = true := by simp [h]
      simp [getBookText, hid', h']
  · intro id msg code isErr hid htrim
    have hid' : (id == "") = false := by simp [hid]
    have htrim' : (jsTrim id == "") = false := by simp [htrim]
    simp [getBookText, fetchFresh, hid', htrim']
  · intro id msg st isErr hid htrim hst
    have hid' : (id == "") = false := by simp [hid]
    have htrim' : (jsTrim id == "") = false := by simp [htrim]
    have hst' : (st == some 404) = false := by simp [hst]
    simp [getBookText, fetchFresh, hid', htrim', hst']

/-- C8 witness: the theorem applied at a whitespace-only identifier, and
at identifier `1342` under a 404 rejection and under an `ECONNABORTED`
rejection. -/
theorem claim8_witness :
    getBookText (some " ") ⟨none, AxiosOutcome.resolved 200 Js.null⟩ =
      ⟨Except.error ("Invalid book ID provided"), none⟩ ∧
    getBookText (some "1342") ⟨none, AxiosOutcome.rejected true (some 404) none true "fail"⟩ =
      ⟨Except.error ("Book with ID 1342 not found"), none⟩ ∧
    getBookText (some "1342") ⟨none, AxiosOutcome.rejected true none (some "ECONNABORTED") true "fail"⟩ =
      ⟨Except.error ("Request timeout: Unable to fetch book text"), none⟩ :=
  ⟨claim8_thm.2.2.1 (" ") ⟨none, AxiosOutcome.resolved 200 Js.null⟩ (by decide),
   claim8_thm.2.2.2.1 ("1342") ("fail") none true (by decide) (by decide),
   claim8_thm.2.2.2.2 ("1342") ("fail") none true (by decide) (by decide) (by decide)⟩

/-- Helper: any cache write issued inside `getBookText` is either absent
or carries the TTL of a `set` call with no explicit TTL argument. -/
theorem getBookText_write_cases :
    ∀ (bid : Option String) (fenv : FetchEnv),
      (getBookText bid fenv).write = none ∨
      ∃ k v, (getBookText bid fenv).write = some (k, CacheService.finalTTL none, v) := by
  intro bid fenv
  cases bid with
  | none => exact Or.inl rfl
  | some id =>
    unfold getBookText fetchFresh
    repeat' split
    all_goals first
      | exact Or.inl rfl
      | exact Or.inr ⟨_, _, rfl⟩

/-- Helper: every write in the route's view of the text-fetch writes
carries the no-explicit-TTL `set` TTL. -/
theorem textWrites_ttl :
    ∀ (bid : Option String) (fenv : FetchEnv) (w : String × Int × Js),
      w ∈ textWrites (getBookText bid fenv) → w.2.1 = CacheService.finalTTL none := by
  intro bid fenv w hw
  unfold textWrites at hw
  rcases getBookText_write_cases bid fenv with hc | ⟨k, v, hc⟩ <;> rw [hc] at hw
  · simp at hw
  · simp at hw
    rw [hw]

/-- Helper: the miss path's writes are the text-fetch writes, possibly
followed by the one analysis write, which itself uses `set` with no
explicit TTL. -/
theorem missPath_writes_cases :
    ∀ (parse : String → Option Js) (env : RouteEnv) (id : String),
      (missPath parse env id).writes = textWrites (getBookText (some id) env.fetch) ∨
      ∃ v, (missPath parse env id).writes =
        textWrites (getBookText (some id) env.fetch) ++
          [(CacheService.generateAnalysisKey id, CacheService.finalTTL none, v)] := by
  intro parse env id
  simp only [missPath]
  repeat' split
  all_goals first
    | exact Or.inl rfl
    | exact Or.inr ⟨_, rfl⟩

/-- Helper: every write the miss path issues carries the no-explicit-TTL
`set` TTL. -/
theorem missPath_writes_ttl :
    ∀ (parse : String → Option Js) (env : RouteEnv) (id : String) (w : String × Int × Js),
      w ∈ (missPath parse env id).writes → w.2.1 = CacheService.finalTTL none := by
  intro parse env id w hw
  rcases missPath_writes_cases parse env id with hcase | ⟨v, hcase⟩
  · rw [hcase] at hw
    exact textWrites_ttl (some id) env.fetch w hw
  · rw [hcase] at hw
    rcases List.mem_append.mp hw with h1 | h2
    · exact textWrites_ttl (some id) env.fetch w h1
    · simp at h2
      rw [h2]

/-- Helper: every status produced by the outer catch mapping differs
from 200. -/
theorem routeCatchSB_ne_200 :
    ∀ (b m : String), ¬ (routeCatchSB b m).1 = 200 := by
  intro b m
  unfold routeCatchSB
  repeat' split
  all_goals intro h
  all_goals simp at h

/-- Helper: a 200 from the miss path carries an object (hence truthy)
body. -/
theorem missPath_200_truthy :
    ∀ (parse : String → Option Js) (env : RouteEnv) (id : String),
      (missPath parse env id).status = 200 →
        jsTruthy (missPath parse env id).body = true := by
  intro parse env id
  simp only [missPath]
  repeat' split
  all_goals intro h
  all_goals first
    | exact absurd h (routeCatchSB_ne_200 _ _)
    | exact absurd h (by decide)
    | rfl

/-- Helper: a 200 from the route carries a truthy body (either the truthy
cached value or a freshly built object). -/
theorem analyzeGET_200_truthy :
    ∀ (parse : String → Option Js) (env : RouteEnv),
      (analyzeGET parse env).status = 200 →
        jsTruthy (analyzeGET parse env).body = true := by
  intro parse env
  unfold analyzeGET
  repeat' split
  all_goals first
    | (intro h; exact absurd h (by decide))
    | (intro _; assumption)
    | exact missPath_200_truthy _ _ _

/-- C7: with a valid `bookId`, when the analysis cache holds a (truthy)
stored AnalysisResult the route returns it verbatim with no cache writes —
no re-normalization, no recomputed word count, no new timestamp; hence a
second call whose cache read returns the first call's 200 body answers
with that exact body (byte-identical, including the first call's
timestamp), whatever the second call's clock, fetch or model would do. -/
theorem claim7_thm :
    (∀ (parse : String → Option Js) (env : RouteEnv) (id : String) (v : Js),
        env.bookId = some id → ¬ id = "" → env.cachedAnalysis = some v →
        jsTruthy v = true → analyzeGET parse env = ⟨200, v, []⟩) ∧
    (∀ (parse : String → Option Js) (env1 env2 : RouteEnv) (id : String),
        env2.bookId = some id → ¬ id = "" →
        (analyzeGET parse env1).status = 200 →
        env2.cachedAnalysis = some ((analyzeGET parse env1).body) →
        analyzeGET parse env2 = ⟨200, (analyzeGET parse env1).body, []⟩) := by
  have partA : ∀ (parse : String → Option Js) (env : RouteEnv) (id : String) (v : Js),
      env.bookId = some id → ¬ id = "" → env.cachedAnalysis = some v →
      jsTruthy v = true → analyzeGET parse env = ⟨200, v, []⟩ := by
    intro parse env id v hb hid hc htr
    have hid' : (id == "") = false := by simp [hid]
    obtain ⟨bid, ca, fenv, chat, now⟩ := env
    rw [show RouteEnv.bookId ⟨bid, ca, fenv, chat, now⟩ = bid from rfl] at hb
    rw [show RouteEnv.cachedAnalysis ⟨bid, ca, fenv, chat, now⟩ = ca from rfl] at hc
    subst hb
    subst hc
    simp [analyzeGET, hid', htr]
  exact ⟨partA, fun parse env1 env2 id hb hid h200 hc =>
    partA parse env2 id _ hb hid hc (analyzeGET_200_truthy parse env1 h200)⟩

/-- C7 witness: a concrete first call (cache miss, model answers `{}`)
followed by a second call whose cache read returns the first call's body:
the second response is exactly that body with no writes. -/
theorem claim7_witness :
    analyzeGET parseEmptyObj routeEnv2 =
      ⟨200, (analyzeGET parseEmptyObj routeEnv1).body, []⟩ :=
  claim7_thm.2 parseEmptyObj routeEnv1 routeEnv2 ("1") rfl (by decide) rfl rfl

/-- C4 counterexample: on a concrete successful analysis (book `1`,
model answers `{}`), the analysis entry is stored with an enforced TTL of
604800 seconds — the very same 7-day default the text entry gets — so it
does expire, contradicting "no enforced TTL / the 7-day default applies
only to raw text entries". -/
theorem claim4_counterexample :
    (analyzeGET parseEmptyObj routeEnv1).writes.map (fun w => (w.1, w.2.1)) =
      [("book:1:text", 604800), ("book:1:analysis", 604800)] ∧
    CacheService.defaultTTL = 604800 := ⟨rfl, rfl⟩

/-- C4 amended: the analysis result is cached via `set` with no explicit
TTL argument, and `set` then applies the 7-day default (`setex` with
604800 seconds) — so every cache write the analyze route issues, the
analysis entry included, carries the same enforced 7-day TTL as raw-text
entries. -/
theorem claim4_amended_thm :
    (∀ (parse : String → Option Js) (env : RouteEnv) (w : String × Int × Js),
        w ∈ (analyzeGET parse env).writes → w.2.1 = CacheService.defaultTTL) ∧
    CacheService.finalTTL none = CacheService.defaultTTL ∧
    CacheService.defaultTTL = 604800 := by
  refine ⟨?_, rfl, rfl⟩
  intro parse env w hw
  obtain ⟨bid, ca, fenv, chat, now⟩ := env
  cases bid with
  | none => simp [analyzeGET] at hw
  | some id =>
    by_cases hid : (id == "") = true
    · simp [analyzeGET, hid] at hw
    · cases ca with
      | some v =>
        by_cases htr : jsTruthy v = true
        · simp [analyzeGET, hid, htr] at hw
        · simp only [analyzeGET] at hw
          rw [if_neg hid, if_neg htr] at hw
          exact (missPath_writes_ttl parse _ id w hw).trans rfl
      | none =>
        simp only [analyzeGET] at hw
        rw [if_neg hid] at hw
        exact (missPath_writes_ttl parse _ id w hw).trans rfl

/-- C4 witness: the amended theorem applied to the concrete text write of
the concrete successful run. -/
theorem claim4_witness :
    ((("book:1:text" : String), (604800 : Int), Js.str "a b") : String × Int × Js).2.1 =
      CacheService.defaultTTL :=
  claim4_amended_thm.1 parseEmptyObj routeEnv1 _ (List.Mem.head _)
